import Mathlib

/-!
Shallow embedding of the `swot-precip-validation` notebook helpers
(`src/notebooks/download.py`, `src/notebooks/plot.py`,
`src/notebooks/utilities.py`) and proofs about them.

Modelling conventions:
* A pandas tz-aware `Timestamp` is an instant; we represent an instant by
  its UTC calendar components, so `tz_convert('UTC')` is the identity on
  the representation.
* Latitudes, longitudes and sampled grid values are rationals (the Python
  floats of the source, modelled exactly).
* Python's `%` on numbers is `pyMod` (floored modulus).
* The network is an explicit argument: `download_mrms` receives
  `net : String → MrmsResponse` (URL to status code plus decoded grid);
  `fetch_hydrocron` receives a fallible `get` and a fallible CSV parser,
  with `Except String` standing for a raised Python exception.
* `pd.concat` on an empty list raises `ValueError`; `pdConcat` models this
  with `Except.error`.
-/

/-- UTC calendar components of a pandas timestamp (an instant). -/
structure Timestamp where
  year : Nat
  month : Nat
  day : Nat
  hour : Nat
  minute : Nat
  second : Nat
deriving DecidableEq, Repr

/-- Lexicographic order on timestamps, matching chronological order of the
underlying instants; pandas `groupby` sorts group keys with it. -/
def Timestamp.le (a b : Timestamp) : Bool :=
  if a.year ≠ b.year then a.year < b.year
  else if a.month ≠ b.month then a.month < b.month
  else if a.day ≠ b.day then a.day < b.day
  else if a.hour ≠ b.hour then a.hour < b.hour
  else if a.minute ≠ b.minute then a.minute < b.minute
  else a.second ≤ b.second

/-- One row of the input time-series table `ts_df`
(columns `node_id`, `lat`, `lon`, and the `time` index). -/
structure TsRow where
  node_id : String
  lat : ℚ
  lon : ℚ
  time : Timestamp
deriving DecidableEq, Repr

/-- A decoded MRMS grid: its single data variable, as the sampling function
that nearest-neighbour interpolation (`.interp(..., method='nearest')`)
realises at a (latitude, longitude) query point. -/
structure Grid where
  sample : ℚ → ℚ → ℚ

/-- What `requests.get` on an MRMS URL yields once the body has been
gunzipped and decoded: a status code, and the decoded grid
(only read when the status is 200). -/
structure MrmsResponse where
  status_code : Nat
  grid : Grid

/-- One row appended to `new_rows` by `download_mrms`:
`{'node_id': ..., 'time': dt, var_name: var_value}`. -/
structure PrecipRow where
  node_id : String
  time : Timestamp
  value : ℚ
deriving DecidableEq, Repr

/-- Python's `%` on exact numbers: floored modulus, `a - b * floor (a / b)`. -/
def pyMod (a b : ℚ) : ℚ := a - b * ⌊a / b⌋

/-- `mrms_minute`: `0` if `hourly`, else `(minute // 2) * 2`
(round down to the nearest even minute). -/
def mrmsMinute (hourly : Bool) (minute : Nat) : Nat :=
  if hourly then 0 else minute / 2 * 2

/-- Python's `f"{n:02d}"`: decimal digits, left-padded with zeros to width 2. -/
def pad2 (n : Nat) : String :=
  if n < 10 then "0" ++ toString n else toString n

/-- The MRMS URL built by `download_mrms` from the bucketed key.  The year is
interpolated as `{year}` (no padding); month, day, hour and minute as
`{...:02d}`. -/
def mrmsUrl (var_name : String) (year month day hour mrms_minute : Nat) : String :=
  "https://noaa-mrms-pds.s3.amazonaws.com/CONUS" ++
  "/" ++ var_name ++
  "/" ++ toString year ++ pad2 month ++ pad2 day ++
  "/MRMS_" ++ var_name ++
  "_" ++ toString year ++ pad2 month ++ pad2 day ++
  "-" ++ pad2 hour ++ pad2 mrms_minute ++ "00" ++
  ".grib2.gz"

/-- The distinct elements of a list of timestamps (order irrelevant here:
`groupbyTime` sorts the result). -/
def dedupTimes : List Timestamp → List Timestamp
  | [] => []
  | t :: ts => if t ∈ ts then dedupTimes ts else t :: dedupTimes ts

/-- Insert a timestamp into a sorted list (ascending `Timestamp.le`). -/
def insertSorted (t : Timestamp) : List Timestamp → List Timestamp
  | [] => [t]
  | u :: us => if Timestamp.le t u then t :: u :: us else u :: insertSorted t us

/-- Sort a list of timestamps ascending (insertion sort). -/
def sortTimes (ts : List Timestamp) : List Timestamp :=
  ts.foldr insertSorted []

/-- pandas `ts_df.reset_index().groupby('time')`: the distinct `time` values
in ascending order, each paired with the rows carrying exactly that value,
in their original order. -/
def groupbyTime (df : List TsRow) : List (Timestamp × List TsRow) :=
  (sortTimes (dedupTimes (df.map TsRow.time))).map
    (fun t => (t, df.filter (fun r => decide (r.time = t))))

/-- The body of `download_mrms`'s loop for one group `(dt, swot_df)`:
bucket the timestamp, build the URL, fetch it; on a non-200 status
`continue` (contribute no rows); otherwise sample the grid at each row's
`(lat, lon % 360)` and emit one `PrecipRow` per input row, each stamped
with the group key `dt`. -/
def processGroup (net : String → MrmsResponse) (var_name : String)
    (hourly : Bool) (dt : Timestamp) (swot_df : List TsRow) : List PrecipRow :=
  let dt_utm0 := dt
  let mrms_minute := mrmsMinute hourly dt_utm0.minute
  let mrms_url := mrmsUrl var_name dt_utm0.year dt_utm0.month dt_utm0.day
      dt_utm0.hour mrms_minute
  let response := net mrms_url
  if response.status_code ≠ 200 then []
  else swot_df.map (fun row =>
    { node_id := row.node_id
      time := dt
      value := response.grid.sample row.lat (pyMod row.lon 360) })

/-- `pd.concat(objs)`: raises `ValueError` when `objs` is empty, otherwise
concatenates the (single-row) frames in order. -/
def pdConcat {α : Type} (objs : List α) : Except String (List α) :=
  if objs.isEmpty then .error "No objects to concatenate" else .ok objs

/-- `download_mrms`: group the table by timestamp, process each group in key
order accumulating `new_rows`, then `pd.concat` the accumulated rows.
`Except.ok rows` means the run finished and wrote `rows` to the output CSV;
`Except.error` means `pd.concat` raised and no file was written. -/
def download_mrms (net : String → MrmsResponse) (ts_df : List TsRow)
    (var_name : String) (hourly : Bool := false) : Except String (List PrecipRow) :=
  let new_rows := (groupbyTime ts_df).flatMap
    (fun g => processGroup net var_name hourly g.1 g.2)
  pdConcat new_rows

/-! ### `fetch_hydrocron` (src/notebooks/download.py) -/

/-- The hydrocron query URL built from the fixed template. -/
def hydrocronUrl (node_id start_time end_time : String)
    (fields : List String) : String :=
  "https://soto.podaac.earthdatacloud.nasa.gov/hydrocron/v1/timeseries" ++
  "?feature=Node&feature_id=" ++ node_id ++
  "&start_time=" ++ start_time ++ "&end_time=" ++ end_time ++
  "&output=csv" ++
  "&fields=" ++ String.intercalate "," fields

/-- The JSON body of a hydrocron response: the `error` field read on
failure, and the `['results']['csv']` lookup, which can raise `KeyError`. -/
structure HydroJson where
  errorField : Option String
  resultsCsv : Except String String

/-- A hydrocron HTTP response: status code, plus `response.json()`,
which can raise on a malformed body. -/
structure HydroResponse where
  status_code : Nat
  json : Except String HydroJson

/-- `fetch_hydrocron`: build the URL, `requests.get` it inside a
`try` block; on a non-200 status print the JSON error field and return
`None`; otherwise parse the embedded CSV with `pd.read_csv`.  Any raise
inside the `try` (`get`, `response.json()`, the `['results']['csv']`
lookup, or `read_csv`) is caught by the bare `except Exception` handler,
which prints and returns `None`.  `read_csv` is the pandas parser, passed
in as an argument; `α` is its table type. -/
def fetch_hydrocron {α : Type} (get : String → Except String HydroResponse)
    (read_csv : String → Except String α)
    (node_id start_time end_time : String) (fields : List String) : Option α :=
  let attempt : Except String (Option α) := do
    let response ← get (hydrocronUrl node_id start_time end_time fields)
    if response.status_code ≠ 200 then do
      let j ← response.json
      let _err := j.errorField
      return none
    else do
      let j ← response.json
      let csv ← j.resultsCsv
      let tbl ← read_csv csv
      return (some tbl)
  match attempt with
  | .ok r => r
  | .error _ => none

/-! ### `plot_heatmap` (src/notebooks/plot.py)

The pivoted/resampled table is a time × node matrix of cells; a cell is
`none` for NaN (missing) and `some v` for the value `v`. -/

/-- One cell of the pivoted matrix: `none` is NaN. -/
abbrev Cell := Option ℚ

/-- `.dropna(axis=0, how='all')`: drop the rows whose cells are all NaN. -/
def dropnaAllRows (m : List (List Cell)) : List (List Cell) :=
  m.filter (fun row => decide (¬ (∀ c ∈ row, c = none)))

/-- `pivot[pivot < 0] = np.nan`: the boolean mask `pivot < 0` is `True`
exactly on the cells holding a strictly negative value (a NaN comparison
is `False`), and those cells are set to NaN. -/
def maskNegative (m : List (List Cell)) : List (List Cell) :=
  m.map (fun row => row.map (fun c =>
    match c with
    | some v => if v < 0 then none else some v
    | none => none))

/-- The matrix `plot_heatmap` renders, starting from the pivoted and
daily-resampled matrix `m`: drop all-NaN rows, then mask negatives. -/
def heatmapGrid (m : List (List Cell)) : List (List Cell) :=
  maskNegative (dropnaAllRows m)

/-- Total cell access: `some` the `j`-th cell of the `i`-th row when both
indices are in range, else `none`. -/
def getCell (m : List (List Cell)) (i j : Nat) : Option Cell :=
  (m[i]?).bind (fun row => row[j]?)

/-! ### `filter_bits` (src/notebooks/utilities.py) -/

/-- `filter_bits`: for each bit position in `bits_to_check`, test
`(bitmask & 2**bit) > 0`; return `not any(flagged)`.  Python integers are
arbitrary-precision two's-complement, i.e. `ℤ` with `Int.land` for `&`. -/
def filter_bits (bitmask : ℤ) (bits_to_check : List Nat := [13, 14]) : Bool :=
  let flagged := bits_to_check.map (fun bit =>
    decide (Int.land bitmask (2 ^ bit) > 0))
  !(flagged.any id)

/-! ### Spec-side definition for the URL-pattern refinement claim -/

/-- Decimal digits left-padded with zeros to width 4. -/
def pad4 (n : Nat) : String :=
  if n < 10 then "000" ++ toString n
  else if n < 100 then "00" ++ toString n
  else if n < 1000 then "0" ++ toString n
  else toString n

/-- The URL pattern as the spec words it:
`.../CONUS/<var_name>/<YYYYMMDD>/MRMS_<var_name>_<YYYYMMDD>-<HHMM>00.grib2.gz`,
every field zero-padded to its shown width (year to 4 digits, month, day,
hour and minute to 2). -/
def specMrmsUrl (var_name : String) (year month day hour minute : Nat) : String :=
  "https://noaa-mrms-pds.s3.amazonaws.com/CONUS" ++
  "/" ++ var_name ++
  "/" ++ pad4 year ++ pad2 month ++ pad2 day ++
  "/MRMS_" ++ var_name ++
  "_" ++ pad4 year ++ pad2 month ++ pad2 day ++
  "-" ++ pad2 hour ++ pad2 minute ++ "00" ++
  ".grib2.gz"

/-- Spec-side flooring of a timestamp to the grid's temporal resolution:
minute floored to the 2-minute bucket (or forced to 0 when hourly),
seconds zeroed. -/
def floorToBucket (hourly : Bool) (t : Timestamp) : Timestamp :=
  { t with minute := mrmsMinute hourly t.minute, second := 0 }

/-! ### Concrete scenario data (mocked network environments) -/

/-- The timestamp `2021-06-01T13:05:00Z`. -/
def c1Time : Timestamp := ⟨2021, 6, 1, 13, 5, 0⟩

/-- A mocked decoded grid whose sample at `(lat, lon)` is `lat * 1000 + lon`,
so a sampled value identifies the coordinates it was sampled at. -/
def c1Grid : Grid := ⟨fun lat lon => lat * 1000 + lon⟩

/-- A mocked network where every MRMS download succeeds with `c1Grid`. -/
def c1Net : String → MrmsResponse := fun _ => ⟨200, c1Grid⟩

/-- Input row: node `n1` at `(35, -10)`, time `2021-06-01T13:05:00Z`. -/
def c1RowA : TsRow := ⟨"n1", 35, -10, c1Time⟩

/-- Input row: node `n2` at `(40, 20)`, time `2021-06-01T13:05:00Z`. -/
def c1RowB : TsRow := ⟨"n2", 40, 20, c1Time⟩

/-- A second timestamp, `2021-06-01T14:07:00Z`, for a second bucket. -/
def c6TimeB : Timestamp := ⟨2021, 6, 1, 14, 7, 0⟩

/-- The URL of `c1Time`'s bucket (minute 5 floors to 4). -/
def c6UrlA : String := mrmsUrl "PrecipRate" 2021 6 1 13 4

/-- Input row: node `n2` at `(40, 20)`, time `2021-06-01T14:07:00Z`. -/
def c6RowB : TsRow := ⟨"n2", 40, 20, c6TimeB⟩

/-- A mocked network that returns 404 for `c1Time`'s bucket URL and
succeeds with `c1Grid` on every other URL. -/
def c6Net : String → MrmsResponse :=
  fun u => if u = c6UrlA then ⟨404, c1Grid⟩ else ⟨200, c1Grid⟩

/-- A mocked network where every MRMS download fails with 404. -/
def c9Net : String → MrmsResponse := fun _ => ⟨404, c1Grid⟩

/-- A mocked hydrocron `requests.get` answering 404 with an error JSON. -/
def c5Get404 : String → Except String HydroResponse :=
  fun _ => .ok ⟨404, .ok ⟨some "400: Bad Request", .error "KeyError"⟩⟩

/-- A mocked hydrocron `requests.get` that raises a connection error. -/
def c5GetRaise : String → Except String HydroResponse :=
  fun _ => .error "ConnectionError"

/-- A mocked `pd.read_csv` that always parses successfully. -/
def c5Read : String → Except String Unit := fun _ => .ok ()

/-! ## Helper lemmas -/

theorem mem_insertSorted {u t : Timestamp} {l : List Timestamp} :
    u ∈ insertSorted t l ↔ u = t ∨ u ∈ l := by
  induction l with
  | nil => simp [insertSorted]
  | cons x xs ih =>
    simp only [insertSorted]
    by_cases h : Timestamp.le t x
    · simp [h]
    · simp [h, ih]
      tauto

theorem mem_sortTimes {t : Timestamp} {l : List Timestamp} :
    t ∈ sortTimes l ↔ t ∈ l := by
  induction l with
  | nil => simp [sortTimes]
  | cons x xs ih =>
    simp only [sortTimes, List.foldr_cons]
    rw [show xs.foldr insertSorted [] = sortTimes xs from rfl]
    simp [mem_insertSorted, ih]

theorem mem_dedupTimes {t : Timestamp} {l : List Timestamp} :
    t ∈ dedupTimes l ↔ t ∈ l := by
  induction l with
  | nil => simp [dedupTimes]
  | cons x xs ih =>
    simp only [dedupTimes]
    by_cases h : x ∈ xs
    · rw [if_pos h]
      simp only [List.mem_cons, ih]
      constructor
      · exact Or.inr
      · rintro (rfl | hx)
        · exact h
        · exact hx
    · rw [if_neg h]
      simp [ih]

theorem processGroup_mem_time {net : String → MrmsResponse} {var_name : String}
    {hourly : Bool} {dt : Timestamp} {swot_df : List TsRow} {p : PrecipRow}
    (hp : p ∈ processGroup net var_name hourly dt swot_df) : p.time = dt := by
  unfold processGroup at hp
  by_cases h : (net (mrmsUrl var_name dt.year dt.month dt.day dt.hour
      (mrmsMinute hourly dt.minute))).status_code ≠ 200
  · simp [h] at hp
  · simp [h] at hp
    obtain ⟨r, _, rfl⟩ := hp
    rfl

theorem int_land_natCast_nonneg (a : ℤ) (n : ℕ) : 0 ≤ Int.land a n := by
  rcases a with m | m <;> simp [Int.land]

theorem int_land_pow_nonneg (a : ℤ) (b : ℕ) : 0 ≤ Int.land a (2 ^ b) := by
  have h : ((2 : ℤ) ^ b) = ((2 ^ b : ℕ) : ℤ) := by push_cast; ring
  rw [h]
  exact int_land_natCast_nonneg a _

/-! ## Claim theorems -/

/-- C3: for every input timestamp, the derived minute of the bucketed key is
0 when the hourly flag is set, and otherwise the largest even number ≤ the
input minute (even, ≤ minute, and within 2 of it); in particular 47 ↦ 46
and 0 ↦ 0. -/
theorem mrms_minute_bucket_correct (minute : Nat) :
    mrmsMinute true minute = 0 ∧
    mrmsMinute false minute % 2 = 0 ∧
    mrmsMinute false minute ≤ minute ∧
    minute < mrmsMinute false minute + 2 ∧
    mrmsMinute false 47 = 46 ∧ mrmsMinute false 0 = 0 := by
  unfold mrmsMinute
  norm_num
  omega

/-- Witness for C3 at input minute 47. -/
theorem mrms_minute_bucket_correct_witness :
    mrmsMinute true 47 = 0 ∧
    mrmsMinute false 47 % 2 = 0 ∧
    mrmsMinute false 47 ≤ 47 ∧
    47 < mrmsMinute false 47 + 2 ∧
    mrmsMinute false 47 = 46 ∧ mrmsMinute false 0 = 0 :=
  mrms_minute_bucket_correct 47

/-- C7: for every bucketed key and variable name, the requested URL equals
the spec's fixed pattern with all fields zero-padded to their shown widths.
The year hypothesis is the pandas `Timestamp` year range (1677–2262), within
which the unpadded `{year}` interpolation always prints 4 digits. -/
theorem mrms_url_matches_spec_pattern (var_name : String)
    (year month day hour minute : Nat)
    (hy1 : 1677 ≤ year) (hy2 : year ≤ 2262) :
    mrmsUrl var_name year month day hour minute =
      specMrmsUrl var_name year month day hour minute := by
  unfold mrmsUrl specMrmsUrl pad4
  rw [if_neg (by omega), if_neg (by omega), if_neg (by omega)]

/-- Witness for C7 at the key (2021, 6, 1, 13, 4). -/
theorem mrms_url_matches_spec_pattern_witness :
    1677 ≤ 2021 ∧ 2021 ≤ 2262 ∧
    mrmsUrl "PrecipRate" 2021 6 1 13 4 = specMrmsUrl "PrecipRate" 2021 6 1 13 4 :=
  ⟨by norm_num, by norm_num,
   mrms_url_matches_spec_pattern "PrecipRate" 2021 6 1 13 4 (by norm_num) (by norm_num)⟩

/-- C10: `filter_bits` returns `true` iff every listed bit of the bitmask is
clear (`bitmask & 2^b = 0`); with the default list it returns `true` exactly
when bits 13 and 14 are both clear. -/
theorem filter_bits_iff_all_clear (bitmask : ℤ) (bits : List Nat) :
    (filter_bits bitmask bits = true ↔
      ∀ b ∈ bits, Int.land bitmask (2 ^ b) = 0) ∧
    (filter_bits bitmask = true ↔
      Int.land bitmask (2 ^ 13) = 0 ∧ Int.land bitmask (2 ^ 14) = 0) := by
  have key : ∀ bs : List Nat, (filter_bits bitmask bs = true ↔
      ∀ b ∈ bs, Int.land bitmask (2 ^ b) = 0) := by
    intro bs
    unfold filter_bits
    simp only [Bool.not_eq_true', List.any_eq_false, List.forall_mem_map,
      id_eq, decide_eq_false_iff_not, decide_eq_true_eq, not_lt]
    constructor
    · intro h b hb
      exact le_antisymm (h b hb) (int_land_pow_nonneg bitmask b)
    · intro h b hb
      exact le_of_eq (h b hb)
  refine ⟨key bits, ?_⟩
  rw [key [13, 14]]
  simp

/-- Witness for C10: bitmask 0 passes the filter; bitmask `2^13 = 8192`
(bit 13 set) does not. -/
theorem filter_bits_iff_all_clear_witness :
    filter_bits 0 = true ∧ filter_bits 8192 = false := by
  constructor
  · exact (filter_bits_iff_all_clear 0 []).2.mpr (by constructor <;> decide)
  · have h := (filter_bits_iff_all_clear 8192 []).2
    rw [Bool.eq_false_iff]
    intro hc
    have := h.mp hc
    revert this
    decide

/-- C1: with two input rows sharing the timestamp `2021-06-01T13:05:00Z` at
`(35, -10)` and `(40, 20)` and a successful mocked download, `download_mrms`
produces exactly two output rows, both stamped `2021-06-01T13:05:00Z`, whose
values are the grid sampled at each row's own latitude and wrapped
longitude (`35*1000 + 350` and `40*1000 + 20` under `c1Grid`). -/
theorem download_mrms_two_rows_scenario :
    download_mrms c1Net [c1RowA, c1RowB] "PrecipRate" false =
      .ok [⟨"n1", c1Time, 35350⟩, ⟨"n2", c1Time, 40020⟩] ∧
    c1Grid.sample c1RowA.lat (pyMod c1RowA.lon 360) = 35350 ∧
    c1Grid.sample c1RowB.lat (pyMod c1RowB.lon 360) = 40020 := by
  refine ⟨?_, ?_, ?_⟩ <;>
    norm_num [download_mrms, groupbyTime, sortTimes, insertSorted, dedupTimes,
      processGroup, mrmsMinute, pdConcat, pyMod, c1Net, c1Grid, c1RowA, c1RowB,
      c1Time]

/-- C2 counterexample: for the source timestamp `2021-06-01T13:05:00Z`
(minute 5) with a successful download, the single output record keeps
timestamp `13:05`, whereas the floor to the 2-minute grid resolution is
`13:04`; so the record's timestamp is not the floored timestamp. -/
theorem sampled_time_not_floored :
    download_mrms c1Net [c1RowA] "PrecipRate" false =
      .ok [⟨"n1", c1Time, 35350⟩] ∧
    floorToBucket false c1RowA.time = ⟨2021, 6, 1, 13, 4, 0⟩ ∧
    (⟨"n1", c1Time, 35350⟩ : PrecipRow).time ≠ floorToBucket false c1RowA.time := by
  refine ⟨?_, ?_, ?_⟩
  · norm_num [download_mrms, groupbyTime, sortTimes, insertSorted, dedupTimes,
      processGroup, mrmsMinute, pdConcat, pyMod, c1Net, c1Grid, c1RowA, c1Time]
  · norm_num [floorToBucket, mrmsMinute, c1RowA, c1Time]
  · norm_num [floorToBucket, mrmsMinute, c1RowA, c1Time]

/-- C2 amended: each sampled precipitation record's timestamp is its source
time-series timestamp, unchanged (the group key `dt`); the floored 2-minute
bucket is used only to build the download URL. -/
theorem sampled_time_is_source_time (net : String → MrmsResponse)
    (ts_df : List TsRow) (var_name : String) (hourly : Bool)
    (out : List PrecipRow)
    (hok : download_mrms net ts_df var_name hourly = .ok out)
    (p : PrecipRow) (hp : p ∈ out) : p.time ∈ ts_df.map TsRow.time := by
  unfold download_mrms pdConcat at hok
  by_cases hemp : ((groupbyTime ts_df).flatMap
      (fun g => processGroup net var_name hourly g.1 g.2)).isEmpty
  · simp [hemp] at hok
  · simp [hemp] at hok
    subst hok
    rw [List.mem_flatMap] at hp
    obtain ⟨g, hg, hpg⟩ := hp
    have ht : p.time = g.1 := processGroup_mem_time hpg
    unfold groupbyTime at hg
    rw [List.mem_map] at hg
    obtain ⟨t, htmem, rfl⟩ := hg
    rw [mem_sortTimes, mem_dedupTimes] at htmem
    rw [ht]
    exact htmem

/-- Witness for the amended C2: in the two-row scenario the first output
record's timestamp occurs among the input rows' timestamps. -/
theorem sampled_time_is_source_time_witness :
    (⟨"n1", c1Time, 35350⟩ : PrecipRow).time ∈ [c1RowA, c1RowB].map TsRow.time := by
  refine sampled_time_is_source_time c1Net [c1RowA, c1RowB] "PrecipRate" false
    [⟨"n1", c1Time, 35350⟩, ⟨"n2", c1Time, 40020⟩] ?_ _ ?_
  · norm_num [download_mrms, groupbyTime, sortTimes, insertSorted, dedupTimes,
      processGroup, mrmsMinute, pdConcat, pyMod, c1Net, c1Grid, c1RowA, c1RowB,
      c1Time]
  · simp

/-- C4: for every row of a successfully downloaded group, the group emits a
record sampled at the row's latitude and at `pyMod lon 360` — the longitude
reduced into the 0–360 convention (the reduced value lies in `[0, 360)` and
input longitude −10 reduces to 350). -/
theorem sample_uses_wrapped_longitude (net : String → MrmsResponse)
    (var_name : String) (hourly : Bool) (dt : Timestamp) (swot_df : List TsRow)
    (r : TsRow) (hr : r ∈ swot_df)
    (h200 : (net (mrmsUrl var_name dt.year dt.month dt.day dt.hour
        (mrmsMinute hourly dt.minute))).status_code = 200) :
    ({ node_id := r.node_id, time := dt,
       value := (net (mrmsUrl var_name dt.year dt.month dt.day dt.hour
         (mrmsMinute hourly dt.minute))).grid.sample r.lat (pyMod r.lon 360) }
      : PrecipRow) ∈ processGroup net var_name hourly dt swot_df ∧
    0 ≤ pyMod r.lon 360 ∧ pyMod r.lon 360 < 360 ∧
    pyMod (-10 : ℚ) 360 = 350 := by
  have hfr : pyMod r.lon 360 = 360 * Int.fract (r.lon / 360) := by
    unfold pyMod Int.fract
    ring
  refine ⟨?_, ?_, ?_, ?_⟩
  · simp only [processGroup]
    rw [if_neg (by simp [h200])]
    exact List.mem_map_of_mem _ hr
  · rw [hfr]
    exact mul_nonneg (by norm_num) (Int.fract_nonneg _)
  · rw [hfr]
    nlinarith [Int.fract_lt_one (r.lon / 360)]
  · norm_num [pyMod]

/-- Witness for C4 in the concrete two-row scenario: node `n1`'s sample at
`(35, pyMod (-10) 360)` is among the group's outputs. -/
theorem sample_uses_wrapped_longitude_witness :
    ({ node_id := c1RowA.node_id, time := c1Time,
       value := (c1Net (mrmsUrl "PrecipRate" c1Time.year c1Time.month
         c1Time.day c1Time.hour (mrmsMinute false c1Time.minute))).grid.sample
           c1RowA.lat (pyMod c1RowA.lon 360) } : PrecipRow)
      ∈ processGroup c1Net "PrecipRate" false c1Time [c1RowA, c1RowB] ∧
    0 ≤ pyMod c1RowA.lon 360 ∧ pyMod c1RowA.lon 360 < 360 ∧
    pyMod (-10 : ℚ) 360 = 350 :=
  sample_uses_wrapped_longitude c1Net "PrecipRate" false c1Time
    [c1RowA, c1RowB] c1RowA (by simp) rfl

/-- C6: a bucket whose download returns a non-200 status contributes zero
output rows and raises nothing (`processGroup` is `[]`), and the run
continues with the remaining buckets: in the concrete two-bucket scenario
where `2021-06-01T13:05` gets a 404 and `2021-06-01T14:07` succeeds, the
output holds exactly the second bucket's row. -/
theorem failed_bucket_skipped (net : String → MrmsResponse) (var_name : String)
    (hourly : Bool) (dt : Timestamp) (swot_df : List TsRow)
    (hfail : (net (mrmsUrl var_name dt.year dt.month dt.day dt.hour
        (mrmsMinute hourly dt.minute))).status_code ≠ 200) :
    processGroup net var_name hourly dt swot_df = [] ∧
    download_mrms c6Net [c1RowA, c6RowB] "PrecipRate" false =
      .ok [⟨"n2", c6TimeB, 40020⟩] := by
  constructor
  · simp only [processGroup]
    rw [if_pos hfail]
  · have hg : groupbyTime [c1RowA, c6RowB] =
        [(c1Time, [c1RowA]), (c6TimeB, [c6RowB])] := by decide
    have h1 : processGroup c6Net "PrecipRate" false c1Time [c1RowA] = [] := by
      simp only [processGroup]
      rw [if_pos (by decide)]
    have h2 : processGroup c6Net "PrecipRate" false c6TimeB [c6RowB] =
        [⟨"n2", c6TimeB, 40020⟩] := by
      simp only [processGroup]
      rw [if_neg (by decide)]
      have hgrid : (c6Net (mrmsUrl "PrecipRate" c6TimeB.year c6TimeB.month
          c6TimeB.day c6TimeB.hour (mrmsMinute false c6TimeB.minute))).grid =
            c1Grid := by
        have hresp : c6Net (mrmsUrl "PrecipRate" c6TimeB.year c6TimeB.month
            c6TimeB.day c6TimeB.hour (mrmsMinute false c6TimeB.minute)) =
              ⟨200, c1Grid⟩ := by
          simp only [c6Net]
          rw [if_neg (by decide)]
        rw [hresp]
      simp only [List.map_cons, List.map_nil, hgrid]
      norm_num [c1Grid, c6RowB, pyMod]
    simp only [download_mrms, hg, List.flatMap_cons, List.flatMap_nil, h1, h2,
      List.nil_append, List.append_nil, pdConcat]
    rfl

/-- Witness for C6: the failing bucket of the two-bucket scenario yields no
rows, and the run still produces the succeeding bucket's row. -/
theorem failed_bucket_skipped_witness :
    processGroup c6Net "PrecipRate" false c1Time [c1RowA] = [] ∧
    download_mrms c6Net [c1RowA, c6RowB] "PrecipRate" false =
      .ok [⟨"n2", c6TimeB, 40020⟩] := by
  refine (failed_bucket_skipped c6Net "PrecipRate" false c1Time [c1RowA] ?_)
  norm_num [c6Net, c6UrlA, c1Time, mrmsMinute]

/-- C9: when `download_mrms` accumulates no output rows — empty input table,
or every bucket's download failing — the final `pd.concat` raises
`ValueError` (`Except.error`), so the run aborts and no output file is
written (a written file is `Except.ok`). -/
theorem no_rows_concat_raises (net net2 : String → MrmsResponse)
    (ts_df : List TsRow) (var_name : String) (hourly : Bool)
    (hfail : ∀ u, (net2 u).status_code ≠ 200) :
    download_mrms net [] var_name hourly = .error "No objects to concatenate" ∧
    download_mrms net2 ts_df var_name hourly =
      .error "No objects to concatenate" := by
  constructor
  · rfl
  · unfold download_mrms
    have h : (groupbyTime ts_df).flatMap
        (fun g => processGroup net2 var_name hourly g.1 g.2) = [] := by
      induction groupbyTime ts_df with
      | nil => rfl
      | cons g gs ih =>
        rw [List.flatMap_cons, ih]
        simp only [processGroup]
        rw [if_pos (hfail _)]
        rfl
    rw [h]
    rfl

/-- Witness for C9: with the all-404 network `c9Net` and one input row, both
the empty-input run and the all-failures run raise the concat error. -/
theorem no_rows_concat_raises_witness :
    download_mrms c1Net [] "PrecipRate" false =
      .error "No objects to concatenate" ∧
    download_mrms c9Net [c1RowA] "PrecipRate" false =
      .error "No objects to concatenate" :=
  no_rows_concat_raises c1Net c9Net [c1RowA] "PrecipRate" false
    (fun _ => by norm_num [c9Net])

/-- C5: `fetch_hydrocron` returns `None` and raises nothing to its caller
on every failure path: the request raising, a non-200 status (whatever the
error-JSON lookup then does), `response.json()` raising, the
`['results']['csv']` lookup raising, or `pd.read_csv` raising. -/
theorem fetch_hydrocron_failure_returns_none {α : Type}
    (get : String → Except String HydroResponse)
    (read_csv : String → Except String α)
    (node_id start_time end_time : String) (fields : List String) :
    (∀ msg, get (hydrocronUrl node_id start_time end_time fields) = .error msg →
      fetch_hydrocron get read_csv node_id start_time end_time fields = none) ∧
    (∀ resp, get (hydrocronUrl node_id start_time end_time fields) = .ok resp →
      resp.status_code ≠ 200 →
      fetch_hydrocron get read_csv node_id start_time end_time fields = none) ∧
    (∀ resp msg,
      get (hydrocronUrl node_id start_time end_time fields) = .ok resp →
      resp.json = .error msg →
      fetch_hydrocron get read_csv node_id start_time end_time fields = none) ∧
    (∀ resp j msg,
      get (hydrocronUrl node_id start_time end_time fields) = .ok resp →
      resp.json = .ok j → j.resultsCsv = .error msg →
      fetch_hydrocron get read_csv node_id start_time end_time fields = none) ∧
    (∀ resp j csv msg,
      get (hydrocronUrl node_id start_time end_time fields) = .ok resp →
      resp.json = .ok j → j.resultsCsv = .ok csv →
      read_csv csv = .error msg →
      fetch_hydrocron get read_csv node_id start_time end_time fields = none) := by
  refine ⟨?_, ?_, ?_, ?_, ?_⟩
  · intro msg hget
    simp [fetch_hydrocron, hget, Bind.bind, Except.bind, Pure.pure, Except.pure]
  · intro resp hget hst
    rcases hj : resp.json with msg | j
    · simp [fetch_hydrocron, hget, hst, hj, Bind.bind, Except.bind,
        Functor.map, Except.map, Pure.pure, Except.pure]
    · simp [fetch_hydrocron, hget, hst, hj, Bind.bind, Except.bind,
        Functor.map, Except.map, Pure.pure, Except.pure]
  · intro resp msg hget hj
    by_cases hst : resp.status_code ≠ 200
    · simp [fetch_hydrocron, hget, hst, hj, Bind.bind, Except.bind,
        Functor.map, Except.map, Pure.pure, Except.pure]
    · simp [fetch_hydrocron, hget, hst, hj, Bind.bind, Except.bind,
        Functor.map, Except.map, Pure.pure, Except.pure]
  · intro resp j msg hget hj hcsv
    by_cases hst : resp.status_code ≠ 200
    · simp [fetch_hydrocron, hget, hst, hj, Bind.bind, Except.bind,
        Functor.map, Except.map, Pure.pure, Except.pure]
    · simp [fetch_hydrocron, hget, hst, hj, hcsv, Bind.bind, Except.bind,
        Functor.map, Except.map, Pure.pure, Except.pure]
  · intro resp j csv msg hget hj hcsv hread
    by_cases hst : resp.status_code ≠ 200
    · simp [fetch_hydrocron, hget, hst, hj, Bind.bind, Except.bind,
        Functor.map, Except.map, Pure.pure, Except.pure]
    · simp [fetch_hydrocron, hget, hst, hj, hcsv, hread, Bind.bind,
        Except.bind, Functor.map, Except.map, Pure.pure, Except.pure]

/-- Witness for C5: a mocked 404 response and a mocked raising request both
make `fetch_hydrocron` return `None`. -/
theorem fetch_hydrocron_failure_returns_none_witness :
    fetch_hydrocron c5Get404 c5Read "node" "start" "end" [] = none ∧
    fetch_hydrocron c5GetRaise c5Read "node" "start" "end" [] = none := by
  constructor
  · exact (fetch_hydrocron_failure_returns_none c5Get404 c5Read
      "node" "start" "end" []).2.1
      ⟨404, .ok ⟨some "400: Bad Request", .error "KeyError"⟩⟩ rfl (by norm_num)
  · exact (fetch_hydrocron_failure_returns_none c5GetRaise c5Read
      "node" "start" "end" []).1 "ConnectionError" rfl

/-- C8: in `plot_heatmap`, after the pivot/daily-resample and the drop of
all-NaN rows, the negative-value mask turns every strictly negative cell
into NaN and leaves every non-negative cell unchanged. -/
theorem heatmap_masks_negatives (m : List (List Cell)) (i j : Nat) (v : ℚ)
    (hv : getCell (dropnaAllRows m) i j = some (some v)) :
    (v < 0 → getCell (heatmapGrid m) i j = some none) ∧
    (0 ≤ v → getCell (heatmapGrid m) i j = some (some v)) := by
  unfold getCell at hv
  cases hrow : (dropnaAllRows m)[i]? with
  | none => rw [hrow] at hv; simp at hv
  | some row =>
    rw [hrow] at hv
    simp only [Option.some_bind] at hv
    have hmask : getCell (heatmapGrid m) i j =
        ((row[j]?).map (fun c =>
          match c with
          | some w => if w < 0 then none else some w
          | none => none)) := by
      unfold heatmapGrid maskNegative getCell
      rw [List.getElem?_map, hrow]
      simp [List.getElem?_map]
    rw [hv] at hmask
    constructor
    · intro hneg
      rw [hmask]
      simp [hneg]
    · intro hpos
      rw [hmask]
      simp [not_lt.mpr hpos]

/-- Witness for C8 on the one-row matrix `[[-1, 2]]`: the negative cell
becomes NaN and the non-negative cell is unchanged. -/
theorem heatmap_masks_negatives_witness :
    getCell (heatmapGrid [[some (-1), some 2]]) 0 0 = some none ∧
    getCell (heatmapGrid [[some (-1), some 2]]) 0 1 = some (some 2) := by
  constructor
  · exact (heatmap_masks_negatives [[some (-1), some 2]] 0 0 (-1)
      (by decide)).1 (by norm_num)
  · exact (heatmap_masks_negatives [[some (-1), some 2]] 0 1 2
      (by decide)).2 (by norm_num)
